import Mathlib

/-!
# Verification of the pattern-selector core of `multi_agentic_patterns_langchain`

This file gives a shallow embedding, in Lean 4, of the rule-based
"pattern selector" engine of the repository
(`pattern_selector_agent/tools/decision.py` and
`pattern_selector_agent/tools/patterns.py`), and proves or refutes the
stated properties of its specification.

Modelling conventions:
* Python strings are Lean `String`s; `str.lower()` is modelled per
  character with `Char.toLower` (all table phrases and marker words are
  ASCII); `needle in hay` is literal substring containment.
* Python dicts that are only built once and iterated are modelled as
  association lists in source (insertion) order.
* Python's stable `sorted(..., reverse=True)` is modelled by a stable
  insertion sort that places an element before the first strictly or
  equally scored element of the already-sorted tail, which preserves the
  original order of equal keys exactly as CPython's stable sort does.
* Tool results that matter to the claims (sentinels vs. real rankings,
  validation errors vs. comparisons) are modelled as inductive result
  types; the surrounding presentation text of the tools is abstracted
  away.
-/

/-! ## String primitives (Python semantics) -/

/-- Python `str.lower()`, per character (ASCII range, as used by the tables). -/
def pyLower (s : String) : String :=
  String.mk (s.data.map Char.toLower)

/-- `isPrefixL n h` : the list `n` is a prefix of `h`. -/
def isPrefixL : List Char → List Char → Bool
  | [], _ => true
  | _ :: _, [] => false
  | a :: as, b :: bs => a == b && isPrefixL as bs

/-- Python `needle in hay` for strings: literal substring containment. -/
def containsSub (hay needle : List Char) : Bool :=
  match hay with
  | [] => isPrefixL needle []
  | _ :: t => isPrefixL needle hay || containsSub t needle

/-- `pyIn needle hay` models the Python expression `needle in hay`. -/
def pyIn (needle hay : String) : Bool :=
  containsSub hay.data needle.data

/-- Python whitespace class `\s` (ASCII): space, tab, newline, CR, FF, VT. -/
def isPySpace (c : Char) : Bool :=
  c = ' ' || c = '\t' || c = '\n' || c = '\r' || c = '\x0b' || c = '\x0c'

/-- Drop leading Python whitespace. -/
def dropSpaceL (l : List Char) : List Char :=
  match l with
  | [] => []
  | c :: t => if isPySpace c then dropSpaceL t else c :: t

/-- Python `str.strip()` (no argument): remove leading and trailing whitespace. -/
def pyStrip (s : String) : String :=
  String.mk ((dropSpaceL (dropSpaceL s.data.reverse).reverse))

/-- Python `str.replace(a, b)` for single-character `a`, `b`. -/
def pyReplaceChar (s : String) (a b : Char) : String :=
  String.mk (s.data.map fun c => if c = a then b else c)

/-- Split a character list at every occurrence of `sep` (Python `str.split(sep)`). -/
def splitCharAux (sep : Char) : List Char → List Char → List (List Char)
  | [], acc => [acc.reverse]
  | c :: t, acc =>
      if c = sep then acc.reverse :: splitCharAux sep t []
      else splitCharAux sep t (c :: acc)

/-- Python `s.split(sep)` for a single-character separator. -/
def pySplitChar (s : String) (sep : Char) : List String :=
  (splitCharAux sep s.data []).map String.mk

/-- Python `line.split(':', 1)`: split at the first colon, if any. -/
def splitFirstColonAux : List Char → List Char → Option (List Char × List Char)
  | [], _ => none
  | c :: t, acc => if c = ':' then some (acc.reverse, t) else splitFirstColonAux t (c :: acc)

/-- Split a string at its first `':'` into (before, after), when a colon occurs. -/
def splitFirstColon (s : String) : Option (String × String) :=
  (splitFirstColonAux s.data []).map fun p => (String.mk p.1, String.mk p.2)

/-! ## Association-list and set helpers -/

/-- First-match association lookup (`dict[k]` / `k in dict` on a fixed table). -/
def findVal : List (String × Nat) → String → Option Nat
  | [], _ => none
  | (k, v) :: t, c => if k = c then some v else findVal t c

/-- Deduplicate keeping the first occurrence of each element: the
deterministic image of building a Python `set` by successive `add`s. -/
def dedupKeepFirst : List String → List String :=
  go []
where
  go : List String → List String → List String
    | _, [] => []
    | seen, a :: t => if a ∈ seen then go seen t else a :: go (a :: seen) t

/-- Stable descending insertion (by the `Nat` component of the pair):
an element goes before the first element whose key is less than or equal
to its own, so earlier elements win ties, as in CPython's stable sort. -/
def insertDesc (a : String × Nat) : List (String × Nat) → List (String × Nat)
  | [] => [a]
  | b :: t => if b.2 ≤ a.2 then a :: b :: t else b :: insertDesc a t

/-- Stable sort, descending by score: models `sorted(items, key=score, reverse=True)`. -/
def sortDesc : List (String × Nat) → List (String × Nat)
  | [] => []
  | a :: t => insertDesc a (sortDesc t)

/-! ## `decision.py`: static tables -/

/-- `PATTERN_CAPABILITIES` from `tools/decision.py`, in source (insertion) order:
each pattern's row of named capability scores. -/
def PATTERN_CAPABILITIES : List (String × List (String × Nat)) :=
  [ ("subagents",
      [ ("parallel_execution", 5), ("context_isolation", 4),
        ("distributed_development", 5), ("direct_user_interaction", 1),
        ("coordination_complexity", 3), ("large_data_handling", 2),
        ("workflow_stages", 2) ]),
    ("deep-agents",
      [ ("parallel_execution", 3), ("context_isolation", 5),
        ("distributed_development", 4), ("direct_user_interaction", 2),
        ("coordination_complexity", 3), ("large_data_handling", 5),
        ("workflow_stages", 2) ]),
    ("supervisor-forward",
      [ ("parallel_execution", 3), ("context_isolation", 3),
        ("distributed_development", 4), ("direct_user_interaction", 3),
        ("coordination_complexity", 3), ("large_data_handling", 2),
        ("workflow_stages", 2), ("audit_compliance", 5),
        ("response_accuracy", 5) ]),
    ("hierarchical-teams",
      [ ("parallel_execution", 4), ("context_isolation", 4),
        ("distributed_development", 5), ("direct_user_interaction", 2),
        ("coordination_complexity", 5), ("large_data_handling", 3),
        ("workflow_stages", 3), ("organizational_modeling", 5) ]),
    ("context-quarantine",
      [ ("parallel_execution", 3), ("context_isolation", 5),
        ("distributed_development", 3), ("direct_user_interaction", 2),
        ("coordination_complexity", 3), ("large_data_handling", 5),
        ("workflow_stages", 2) ]),
    ("skills",
      [ ("parallel_execution", 1), ("context_isolation", 1),
        ("distributed_development", 5), ("direct_user_interaction", 4),
        ("coordination_complexity", 1), ("large_data_handling", 2),
        ("workflow_stages", 1), ("lightweight_composition", 5),
        ("runtime_adaptability", 5) ]),
    ("handoffs",
      [ ("parallel_execution", 1), ("context_isolation", 2),
        ("distributed_development", 4), ("direct_user_interaction", 5),
        ("coordination_complexity", 2), ("large_data_handling", 2),
        ("workflow_stages", 5), ("state_persistence", 5) ]),
    ("router",
      [ ("parallel_execution", 5), ("context_isolation", 3),
        ("distributed_development", 4), ("direct_user_interaction", 2),
        ("coordination_complexity", 2), ("large_data_handling", 3),
        ("workflow_stages", 1), ("query_classification", 5),
        ("result_synthesis", 5) ]),
    ("custom-workflows",
      [ ("parallel_execution", 4), ("context_isolation", 3),
        ("distributed_development", 3), ("direct_user_interaction", 3),
        ("coordination_complexity", 4), ("large_data_handling", 3),
        ("workflow_stages", 5), ("flexibility", 5),
        ("feedback_loops", 5) ]) ]

/-- `REQUIREMENT_MAPPINGS` from `tools/decision.py`, in source (insertion)
order: (keyword phrase, capability name) pairs. -/
def REQUIREMENT_MAPPINGS : List (String × String) :=
  [ ("parallel", "parallel_execution"),
    ("concurrent", "parallel_execution"),
    ("simultaneously", "parallel_execution"),
    ("at the same time", "parallel_execution"),
    ("context isolation", "context_isolation"),
    ("isolated context", "context_isolation"),
    ("separate context", "context_isolation"),
    ("context bloat", "large_data_handling"),
    ("large data", "large_data_handling"),
    ("big data", "large_data_handling"),
    ("large outputs", "large_data_handling"),
    ("huge results", "large_data_handling"),
    ("talk to user", "direct_user_interaction"),
    ("user interaction", "direct_user_interaction"),
    ("talk directly", "direct_user_interaction"),
    ("customer facing", "direct_user_interaction"),
    ("user-facing", "direct_user_interaction"),
    ("stages", "workflow_stages"),
    ("steps", "workflow_stages"),
    ("phases", "workflow_stages"),
    ("sequential", "workflow_stages"),
    ("state machine", "workflow_stages"),
    ("workflow", "workflow_stages"),
    ("teams", "organizational_modeling"),
    ("departments", "organizational_modeling"),
    ("hierarchy", "organizational_modeling"),
    ("organization", "organizational_modeling"),
    ("independent development", "distributed_development"),
    ("separate teams", "distributed_development"),
    ("modular", "distributed_development"),
    ("compliance", "audit_compliance"),
    ("audit", "audit_compliance"),
    ("exact wording", "response_accuracy"),
    ("verbatim", "response_accuracy"),
    ("liability", "audit_compliance"),
    ("custom", "flexibility"),
    ("flexible", "flexibility"),
    ("feedback loop", "feedback_loops"),
    ("revision", "feedback_loops"),
    ("review cycle", "feedback_loops"),
    ("lightweight", "lightweight_composition"),
    ("simple", "lightweight_composition"),
    ("single agent", "lightweight_composition"),
    ("classify", "query_classification"),
    ("route", "query_classification"),
    ("dispatch", "query_classification"),
    ("multiple sources", "result_synthesis"),
    ("combine results", "result_synthesis"),
    ("synthesize", "result_synthesis") ]

/-! ## `decision.py`: `evaluate_requirements` -/

/-- The deduplicated set of capabilities detected in `requirements`:
every mapping phrase that is a substring of the lower-cased input
contributes its capability (`detected_capabilities` in the source,
a Python set; here determinized in first-detection order). -/
def detectedCapabilities (requirements : String) : List String :=
  dedupKeepFirst
    ((REQUIREMENT_MAPPINGS.filter
        (fun kv => pyIn kv.1 (pyLower requirements))).map Prod.snd)

/-- One pattern's score: for each detected capability present in the
pattern's row, add that row's value (absent capabilities add nothing). -/
def patternScore (capabilities : List (String × Nat)) (detected : List String) : Nat :=
  detected.foldl
    (fun acc cap =>
      match findVal capabilities cap with
      | some v => acc + v
      | none => acc)
    0

/-- Result of `evaluate_requirements`: either the "could not detect
specific requirements" sentinel text, or a ranking of
(pattern, score) pairs sorted descending by score (stable). -/
inductive EvalResult where
  | insufficientSignal : EvalResult
  | ranking : List (String × Nat) → EvalResult
  deriving DecidableEq, Repr

/-- `evaluate_requirements` from `tools/decision.py` (scores and ranking;
`max_possible` is `5 * number of detected capabilities` for every pattern
and is stated separately in the theorems). -/
def evaluate_requirements (requirements : String) : EvalResult :=
  let detected := detectedCapabilities requirements
  if detected = [] then
    EvalResult.insufficientSignal
  else
    EvalResult.ranking
      (sortDesc (PATTERN_CAPABILITIES.map fun p => (p.1, patternScore p.2 detected)))

/-- The top recommendation reported by `evaluate_requirements`
(`sorted_patterns[0]`), when there is one. -/
def topRecommendation (requirements : String) : Option String :=
  match evaluate_requirements requirements with
  | EvalResult.insufficientSignal => none
  | EvalResult.ranking sorted => sorted.head?.map Prod.fst

/-! ## `decision.py`: `analyze_use_case` -/

/-- The per-pattern indicator keyword lists of `analyze_use_case`,
in source (insertion) order. -/
def USE_CASE_INDICATORS : List (String × List String) :=
  [ ("subagents",
      [ "coordinate", "coordinator", "supervisor", "domain expert",
        "specialist", "different domains", "finance", "budget",
        "investment", "tax", "multi-service" ]),
    ("deep-agents",
      [ "research", "search many", "large outputs", "summarize",
        "context management", "data intensive", "many tool calls",
        "long conversation" ]),
    ("supervisor-forward",
      [ "legal", "medical", "compliance", "exact response",
        "verbatim", "liability", "audit", "attribution",
        "regulated", "financial advice" ]),
    ("hierarchical-teams",
      [ "team", "department", "hierarchy", "organization",
        "team lead", "nested", "large scale", "enterprise" ]),
    ("context-quarantine",
      [ "large data", "database", "big results", "summarize raw",
        "token limit", "context limit", "huge output",
        "10000", "100k" ]),
    ("skills",
      [ "coding", "programming language", "python", "javascript",
        "code assistant", "writing assistant", "multiple skills",
        "prompt-based", "guidelines", "best practices" ]),
    ("handoffs",
      [ "customer support", "stages", "steps", "greeting",
        "collect", "resolve", "state machine", "workflow",
        "sequential", "talk to user", "conversation flow" ]),
    ("router",
      [ "search", "query", "classify", "dispatch", "parallel",
        "multiple sources", "knowledge base", "faq", "docs",
        "tutorials", "combine results" ]),
    ("custom-workflows",
      [ "content pipeline", "review", "revision", "feedback loop",
        "approval", "quality gate", "custom flow", "conditional",
        "branch", "loop back" ]) ]

/-- The `matches` dict of `analyze_use_case`: for each pattern, the number
of its indicator keywords occurring in the lower-cased input; patterns
with zero matches are omitted. -/
def useCaseMatches (use_case : String) : List (String × Nat) :=
  (USE_CASE_INDICATORS.map
      (fun p => (p.1, (p.2.filter fun kw => pyIn kw (pyLower use_case)).length))).filter
    (fun m => 0 < m.2)

/-- Result of `analyze_use_case`: the "could not identify a clear pattern
match" sentinel text, or a ranking of (pattern, match count) pairs. -/
inductive UseCaseResult where
  | noMatch : UseCaseResult
  | ranking : List (String × Nat) → UseCaseResult
  deriving DecidableEq, Repr

/-- `analyze_use_case` from `tools/decision.py` (match counting and ranking). -/
def analyze_use_case (use_case : String) : UseCaseResult :=
  let ms := useCaseMatches use_case
  if ms = [] then
    UseCaseResult.noMatch
  else
    UseCaseResult.ranking (sortDesc ms)

/-! ## `decision.py`: `get_clarifying_questions` -/

/-- The six decision axes of `get_clarifying_questions`, in source order:
aspect name and the marker words whose presence in the lower-cased input
suppresses that axis's question. -/
def QUESTION_AXES : List (String × List String) :=
  [ ("Execution Model", ["parallel", "sequential"]),
    ("User Interaction", ["user", "customer"]),
    ("Data Volume", ["large", "big", "huge", "context", "token"]),
    ("Workflow Structure", ["stage", "step", "phase", "workflow", "state"]),
    ("Agent Count", ["single", "one", "multiple", "many", "several"]),
    ("Response Handling", ["compliance", "audit", "legal", "exact", "verbatim"]) ]

/-- An axis is unaddressed when none of its marker words occurs in the
lower-cased problem description (the source's `not any(kw in problem_lower ...)`). -/
def axisUnaddressed (problem_description : String) (markers : List String) : Bool :=
  markers.all fun kw => !(pyIn kw (pyLower problem_description))

/-- The aspects whose questions `get_clarifying_questions` builds, before
the cap at 4 (`questions` in the source, in axis order). -/
def unaddressedAspects (problem_description : String) : List String :=
  (QUESTION_AXES.filter fun ax => axisUnaddressed problem_description ax.2).map Prod.fst

/-- Result of `get_clarifying_questions`: either the terminal "your problem
description is quite detailed / no further questions" text, or the list of
emitted question aspects (at most 4). -/
inductive QuestionsResult where
  | terminal : QuestionsResult
  | questions : List String → QuestionsResult
  deriving DecidableEq, Repr

/-- `get_clarifying_questions` from `tools/decision.py`: the terminal
message when every axis is addressed, else the first 4 unaddressed axes'
questions (`questions[:4]`). -/
def get_clarifying_questions (problem_description : String) : QuestionsResult :=
  let qs := unaddressedAspects problem_description
  if qs = [] then
    QuestionsResult.terminal
  else
    QuestionsResult.questions (qs.take 4)

/-- Whether the question for aspect `a` is included in the generator's output. -/
def aspectIncluded (problem_description : String) (a : String) : Bool :=
  match get_clarifying_questions problem_description with
  | QuestionsResult.terminal => false
  | QuestionsResult.questions l => l.contains a

/-! ## `patterns.py`: identifier normalization, loading, comparison -/

/-- The nine discovered pattern identifiers (the keys of `_patterns`; the
repository's tests pin exactly this set, which coincides with the keys of
`PATTERN_CAPABILITIES`). -/
def PATTERN_NAMES : List String :=
  PATTERN_CAPABILITIES.map Prod.fst

/-- `load_pattern`'s name normalization:
`pattern_name.lower().replace("_", "-").replace(" ", "-")`. -/
def normalizeLoadName (pattern_name : String) : String :=
  pyReplaceChar (pyReplaceChar (pyLower pattern_name) '_' '-') ' ' '-'

/-- `get_pattern_comparison`'s per-name normalization:
`n.strip().lower().replace("_", "-")` — note: no space replacement. -/
def normalizeCompareName (n : String) : String :=
  pyReplaceChar (pyLower (pyStrip n)) '_' '-'

/-- Outcome of `load_pattern`, abstracting the three returned messages. -/
inductive LoadOutcome where
  | loaded : LoadOutcome
  | alreadyLoaded : LoadOutcome
  | notFound : LoadOutcome
  deriving DecidableEq, Repr

/-- `load_pattern` from `tools/patterns.py`, over an explicit key set
`patternKeys` (the keys of `_patterns`) and loaded-list `st`
(`_loaded_patterns`): returns the outcome and the new loaded-list. -/
def load_pattern (patternKeys : List String) (st : List String)
    (pattern_name : String) : LoadOutcome × List String :=
  let name := normalizeLoadName pattern_name
  if name ∉ patternKeys then
    (LoadOutcome.notFound, st)
  else if name ∈ st then
    (LoadOutcome.alreadyLoaded, st)
  else
    (LoadOutcome.loaded, st ++ [name])

/-- Result of `get_pattern_comparison`, abstracting the four returned
texts: the invalid-names error (carrying exactly the reported list), the
two cardinality errors, or the rendered comparison of the given names. -/
inductive CompareResult where
  | invalidNames : List String → CompareResult
  | tooFew : CompareResult
  | tooMany : CompareResult
  | comparison : List String → CompareResult
  deriving DecidableEq, Repr

/-- `get_pattern_comparison` from `tools/patterns.py`, over an explicit key
set and the already comma-split list of names (the source splits its
`pattern_names` string on `","` first; the claims quantify over the list). -/
def get_pattern_comparison (patternKeys : List String)
    (names : List String) : CompareResult :=
  let ns := names.map normalizeCompareName
  let invalid := ns.filter fun n => n ∉ patternKeys
  if invalid ≠ [] then
    CompareResult.invalidNames invalid
  else if ns.length < 2 then
    CompareResult.tooFew
  else if 4 < ns.length then
    CompareResult.tooMany
  else
    CompareResult.comparison ns

/-! ## `patterns.py`: frontmatter parsing and discovery

`parse_pattern_frontmatter` anchors the Python regex
`^---\s*\n(.*?)\n---\s*\n(.*)$` (DOTALL) at the start of the content.
The model below reproduces the engine's backtracking order: the literal
`---`, then a greedy `\s*` followed by `\n` (longest whitespace run whose
chosen element is a newline, longer runs preferred), then a lazy group 1
up to the first `\n---` that is itself followed by `\s*\n`, then group 2
taking the whole remainder (so the trailing `$` is vacuous). -/

/-- Remainders available after matching `\s*\n` at the head of `l`, in the
engine's preference order (greedy: the longest consumed whitespace first).
Each candidate is the suffix after some newline inside the leading
whitespace run. -/
def wsNlRemainders (l : List Char) : List (List Char) :=
  go l []
where
  go : List Char → List (List Char) → List (List Char)
    | [], acc => acc
    | c :: t, acc =>
        if isPySpace c then go t (if c = '\n' then t :: acc else acc)
        else acc

/-- First success of `f` along a list of candidates. -/
def firstSome {α β : Type} (f : α → Option β) : List α → Option β
  | [] => none
  | a :: t =>
      match f a with
      | some b => some b
      | none => firstSome f t

/-- Lazy search for the closing `\n---\s*\n`: the shortest group-1 prefix
after which the literal `\n---` and then `\s*\n` (greedy) match; returns
(group 1, remainder after the close) if any position succeeds. -/
def findCloseDelim : List Char → Option (List Char × List Char)
  | [] => none
  | c :: t =>
      match
        (match c, t with
         | '\n', '-' :: '-' :: '-' :: rest =>
             ((wsNlRemainders rest).head?).map fun rem => (([] : List Char), rem)
         | _, _ => none) with
      | some r => some r
      | none => (findCloseDelim t).map fun g => (c :: g.1, g.2)

/-- The full-match result of `re.match(r'^---\s*\n(.*?)\n---\s*\n(.*)$',
content, re.DOTALL)`: `some (group 1, group 2)` or `none`. -/
def pyFrontmatterMatch (content : String) : Option (String × String) :=
  match content.data with
  | '-' :: '-' :: '-' :: rest =>
      firstSome
        (fun rem => (findCloseDelim rem).map fun g => (String.mk g.1, String.mk g.2))
        (wsNlRemainders rest)
  | _ => none

/-- Metadata record produced by `parse_pattern_frontmatter`. -/
structure PatternDoc where
  name : String
  title : String
  description : String
  category : String
  complexity : String
  body : String
  deriving DecidableEq, Repr

/-- The placeholder record returned when the frontmatter regex fails:
`name="unknown"` etc., with the raw content as body. -/
def placeholderDoc (content : String) : PatternDoc :=
  ⟨"unknown", "Unknown Pattern", "No description", "unknown", "unknown", content⟩

/-- The "simple YAML parsing" loop: each line of the frontmatter containing
a `':'` contributes `(key.strip(), value.strip())`, later lines
overwriting earlier ones on the same key (Python dict assignment). -/
def metaPairs (frontmatter_text : String) : List (String × String) :=
  (pySplitChar frontmatter_text '\n').foldl
    (fun acc line =>
      match splitFirstColon line with
      | some kv => acc ++ [(pyStrip kv.1, pyStrip kv.2)]
      | none => acc)
    []

/-- `metadata.get(key, default)` with last-assignment-wins semantics. -/
def metaGet (m : List (String × String)) (key dflt : String) : String :=
  match m.reverse.find? fun p => p.1 = key with
  | some p => p.2
  | none => dflt

/-- `parse_pattern_frontmatter` from `tools/patterns.py`. -/
def parse_pattern_frontmatter (content : String) : PatternDoc :=
  match pyFrontmatterMatch content with
  | none => placeholderDoc content
  | some fmBody =>
      let m := metaPairs fmBody.1
      ⟨metaGet m "name" "unknown",
       metaGet m "title" "Unknown Pattern",
       metaGet m "description" "No description",
       metaGet m "category" "unknown",
       metaGet m "complexity" "unknown",
       pyStrip fmBody.2⟩

/-- Python dict insertion `patterns[name] = doc`: replace in place when the
key exists (keeping its original position), else append. -/
def dictInsert (m : List (String × PatternDoc)) (k : String) (v : PatternDoc) :
    List (String × PatternDoc) :=
  if (m.find? fun p => p.1 = k).isSome then
    m.map fun p => if p.1 = k then (k, v) else p
  else
    m ++ [(k, v)]

/-- `discover_patterns` from `tools/patterns.py`, over an abstract
directory: `none` models a missing knowledge directory (the source returns
the empty dict without touching the filesystem), `some files` the glob's
file contents in iteration order. Each file's parsed record is stored
under its parsed `name`. -/
def discover_patterns (dir : Option (List String)) : List (String × PatternDoc) :=
  match dir with
  | none => []
  | some files =>
      files.foldl
        (fun acc content =>
          let parsed := parse_pattern_frontmatter content
          dictInsert acc parsed.name parsed)
        []

/-- Lookup by identifier in a discovered map (`id in patterns` / `patterns[id]`). -/
def lookupDoc : List (String × PatternDoc) → String → Option PatternDoc
  | [], _ => none
  | (k, v) :: t, id => if k = id then some v else lookupDoc t id

/-! ## Session Load Tracker: `unload` -/

/-- Outcome of the Session Load Tracker's `unload`. -/
inductive UnloadOutcome where
  | unloaded : UnloadOutcome
  | notLoaded : UnloadOutcome
  deriving DecidableEq, Repr

/-- Modelled from the spec: `pattern_selector_agent/tools/patterns.py` has
no unload operation in `src/`; spec §4.5 declares
`unload(id) -> outcome {unloaded | not_loaded}` for the Session Load
Tracker, removing `id` from the Loaded-Set when present and otherwise
reporting the informational `not_loaded` outcome with the set unchanged
(§7 AlreadyInState). -/
def unload (st : List String) (id : String) : UnloadOutcome × List String :=
  if id ∈ st then
    (UnloadOutcome.unloaded, st.erase id)
  else
    (UnloadOutcome.notLoaded, st)

/-! ## Helper lemmas -/

theorem dedupKeepFirst_go_mem (l : List String) :
    ∀ (seen : List String) (a : String),
      a ∈ dedupKeepFirst.go seen l ↔ a ∈ l ∧ a ∉ seen := by
  induction l with
  | nil => intro seen a; simp [dedupKeepFirst.go]
  | cons b t ih =>
    intro seen a
    simp only [dedupKeepFirst.go]
    by_cases hb : b ∈ seen
    · simp only [if_pos hb, ih, List.mem_cons]
      constructor
      · rintro ⟨ht, hs⟩; exact ⟨Or.inr ht, hs⟩
      · rintro ⟨hba | ht, hs⟩
        · exact absurd (hba ▸ hb) hs
        · exact ⟨ht, hs⟩
    · simp only [if_neg hb, List.mem_cons, ih]
      constructor
      · rintro (rfl | ⟨ht, hs⟩)
        · exact ⟨Or.inl rfl, hb⟩
        · exact ⟨Or.inr ht, fun h => hs (Or.inr h)⟩
      · rintro ⟨rfl | ht, hs⟩
        · exact Or.inl rfl
        · by_cases hab : a = b
          · exact Or.inl hab
          · exact Or.inr ⟨ht, by simp [hab, hs]⟩

theorem dedupKeepFirst_mem (l : List String) (a : String) :
    a ∈ dedupKeepFirst l ↔ a ∈ l := by
  simpa using dedupKeepFirst_go_mem l [] a

theorem dedupKeepFirst_go_nodup (l : List String) :
    ∀ seen : List String, (dedupKeepFirst.go seen l).Nodup := by
  induction l with
  | nil => intro seen; simp [dedupKeepFirst.go]
  | cons b t ih =>
    intro seen
    simp only [dedupKeepFirst.go]
    by_cases hb : b ∈ seen
    · simpa [hb] using ih seen
    · rw [if_neg hb]
      refine List.nodup_cons.2 ⟨?_, ih (b :: seen)⟩
      intro hmem
      exact ((dedupKeepFirst_go_mem t _ b).1 hmem).2 (List.mem_cons_self b seen)

theorem dedupKeepFirst_nodup (l : List String) : (dedupKeepFirst l).Nodup :=
  dedupKeepFirst_go_nodup l []

theorem dedupKeepFirst_eq_nil (l : List String) :
    dedupKeepFirst l = [] ↔ l = [] := by
  cases l with
  | nil => simp [dedupKeepFirst, dedupKeepFirst.go]
  | cons a t => simp [dedupKeepFirst, dedupKeepFirst.go]

theorem detectedCapabilities_nodup (requirements : String) :
    (detectedCapabilities requirements).Nodup :=
  dedupKeepFirst_nodup _

/-- The detection loop of `evaluate_requirements` never misses a matching
phrase: detection is membership in the filtered mapping table. -/
theorem mem_detectedCapabilities (requirements phrase cap : String)
    (hmem : (phrase, cap) ∈ REQUIREMENT_MAPPINGS)
    (hsub : pyIn phrase (pyLower requirements) = true) :
    cap ∈ detectedCapabilities requirements := by
  unfold detectedCapabilities
  rw [dedupKeepFirst_mem]
  exact List.mem_map.2 ⟨(phrase, cap), List.mem_filter.2 ⟨hmem, hsub⟩, rfl⟩

/-- `detectedCapabilities` is empty exactly when no mapping phrase occurs in
the lower-cased input. -/
theorem detectedCapabilities_eq_nil (requirements : String) :
    detectedCapabilities requirements = [] ↔
      ∀ kv ∈ REQUIREMENT_MAPPINGS, pyIn kv.1 (pyLower requirements) = false := by
  unfold detectedCapabilities
  rw [dedupKeepFirst_eq_nil, List.map_eq_nil_iff, List.filter_eq_nil_iff]
  constructor
  · intro h kv hkv
    simpa using h kv hkv
  · intro h kv hkv
    simp [h kv hkv]

/-- Unfolding `patternScore`'s fold into a mapped sum. -/
theorem patternScore_foldl (capabilities : List (String × Nat)) (l : List String) :
    ∀ a : Nat,
      l.foldl
        (fun acc cap =>
          match findVal capabilities cap with
          | some v => acc + v
          | none => acc)
        a
      = a + (l.map fun c => (findVal capabilities c).getD 0).sum := by
  induction l with
  | nil => intro a; simp
  | cons c t ih =>
    intro a
    simp only [List.foldl_cons, List.map_cons, List.sum_cons]
    cases h : findVal capabilities c with
    | none => simpa [h] using ih a
    | some v => simp [h, ih, Nat.add_assoc]

theorem patternScore_eq_sum (capabilities : List (String × Nat)) (l : List String) :
    patternScore capabilities l
      = (l.map fun c => (findVal capabilities c).getD 0).sum := by
  simpa using patternScore_foldl capabilities l 0

theorem findVal_getD_le (capabilities : List (String × Nat))
    (h : ∀ kv ∈ capabilities, kv.2 ≤ 5) (c : String) :
    (findVal capabilities c).getD 0 ≤ 5 := by
  induction capabilities with
  | nil => simp [findVal]
  | cons kv t ih =>
    simp only [findVal]
    by_cases hk : kv.1 = c
    · obtain ⟨k, v⟩ := kv
      simp only at hk
      simp only [hk, if_pos rfl, Option.getD_some]
      exact h (k, v) (List.mem_cons_self _ _)
    · obtain ⟨k, v⟩ := kv
      simp only at hk
      rw [if_neg hk]
      exact ih fun kv hkv => h kv (List.mem_cons_of_mem _ hkv)

/-- Every entry of the capability matrix is at most 5. -/
theorem pattern_capabilities_le_five :
    ∀ p ∈ PATTERN_CAPABILITIES, ∀ kv ∈ p.2, kv.2 ≤ 5 := by decide

theorem sum_map_le (w : String → Nat) (h : ∀ c, w c ≤ 5) (l : List String) :
    (l.map w).sum ≤ 5 * l.length := by
  induction l with
  | nil => simp
  | cons c t ih =>
    simp only [List.map_cons, List.sum_cons, List.length_cons]
    calc w c + (t.map w).sum ≤ 5 + 5 * t.length := Nat.add_le_add (h c) ih
    _ = 5 * (t.length + 1) := by ring

theorem patternScore_mono (capabilities : List (String × Nat))
    (l1 l2 : List String) (h1 : l1.Nodup) (h2 : l2.Nodup)
    (hsub : ∀ c, c ∈ l1 → c ∈ l2) :
    patternScore capabilities l1 ≤ patternScore capabilities l2 := by
  rw [patternScore_eq_sum, patternScore_eq_sum,
    ← List.sum_toFinset _ h1, ← List.sum_toFinset _ h2]
  refine Finset.sum_le_sum_of_subset ?_
  intro c hc
  exact List.mem_toFinset.2 (hsub c (List.mem_toFinset.1 hc))

/-- `useCaseMatches` is empty exactly when no indicator keyword of any
pattern occurs in the lower-cased input. -/
theorem useCaseMatches_eq_nil (use_case : String) :
    useCaseMatches use_case = [] ↔
      ∀ p ∈ USE_CASE_INDICATORS, ∀ kw ∈ p.2, pyIn kw (pyLower use_case) = false := by
  unfold useCaseMatches
  rw [List.filter_eq_nil_iff]
  constructor
  · intro h p hp kw hkw
    have hm := h _ (List.mem_map.2 ⟨p, hp, rfl⟩)
    simp only [decide_eq_true_eq, Nat.not_lt, Nat.le_zero, List.length_eq_zero,
      List.filter_eq_nil_iff] at hm
    simpa using hm kw hkw
  · intro h m hm
    obtain ⟨p, hp, rfl⟩ := List.mem_map.1 hm
    simp only [decide_eq_true_eq, Nat.not_lt, Nat.le_zero, List.length_eq_zero,
      List.filter_eq_nil_iff]
    intro kw hkw
    simp [h p hp kw hkw]

/-! ## The claims -/

/-- C1 (counterexample): `router` is the unique option whose capability row
assigns 5/5 to both `parallel_execution` and `result_synthesis`, yet for
the input `"Need parallel execution and result synthesis"` the Requirement
Scorer's top-ranked option is `subagents`, not `router`: no mapping phrase
matches the word `synthesis` (the table maps `synthesize`), so only
`parallel_execution` is detected, and the stable descending sort breaks
the 5-point tie in favour of `subagents`, which precedes `router` in the
capability matrix. -/
theorem C1_counterexample :
    (PATTERN_CAPABILITIES.filter fun p =>
        findVal p.2 "parallel_execution" == some 5
          && findVal p.2 "result_synthesis" == some 5).map Prod.fst = ["router"]
    ∧ topRecommendation "Need parallel execution and result synthesis" = some "subagents"
    ∧ topRecommendation "Need parallel execution and result synthesis" ≠ some "router" := by
  decide

/-- C1 (amended): for the input `"Need parallel execution and result
synthesis"`, only `parallel_execution` is detected (no keyword-mapping
phrase is a substring of the input that maps to `result_synthesis`), and
the Requirement Scorer's top-ranked option is `subagents`, which ties with
`router` at score 5 but precedes it in the capability matrix's insertion
order under the stable descending sort. -/
theorem C1_amended :
    detectedCapabilities "Need parallel execution and result synthesis"
        = ["parallel_execution"]
    ∧ evaluate_requirements "Need parallel execution and result synthesis"
        = EvalResult.ranking
            [("subagents", 5), ("router", 5), ("hierarchical-teams", 4),
             ("custom-workflows", 4), ("deep-agents", 3), ("supervisor-forward", 3),
             ("context-quarantine", 3), ("skills", 1), ("handoffs", 1)]
    ∧ topRecommendation "Need parallel execution and result synthesis" = some "subagents" := by
  decide

/-- C2: for every input text and every (phrase, capability) entry of the
keyword mapping table, if the phrase occurs as a substring of the
lower-cased input then that capability is a member of the
detected-capabilities set used by the Requirement Scorer. -/
theorem C2_no_missed_match (requirements phrase cap : String)
    (hmem : (phrase, cap) ∈ REQUIREMENT_MAPPINGS)
    (hsub : pyIn phrase (pyLower requirements) = true) :
    cap ∈ detectedCapabilities requirements :=
  mem_detectedCapabilities requirements phrase cap hmem hsub

theorem C2_no_missed_match_witness :
    ("parallel", "parallel_execution") ∈ REQUIREMENT_MAPPINGS
    ∧ pyIn "parallel" (pyLower "Need PARALLEL execution") = true
    ∧ "parallel_execution" ∈ detectedCapabilities "Need PARALLEL execution" :=
  ⟨by decide, by decide,
    C2_no_missed_match "Need PARALLEL execution" "parallel" "parallel_execution"
      (by decide) (by decide)⟩

/-- C3: for every input and every option of the capability matrix, the
option's score is at most `5 * |detectedCapabilities|` (the reported
`max_possible`), and scores are monotone under adding detected
capabilities: if one input's detected set is contained in another's, no
option's score decreases. -/
theorem C3_bound_and_monotone (r1 r2 name : String)
    (capabilities : List (String × Nat))
    (hrow : (name, capabilities) ∈ PATTERN_CAPABILITIES) :
    patternScore capabilities (detectedCapabilities r1)
        ≤ 5 * (detectedCapabilities r1).length
    ∧ ((∀ c, c ∈ detectedCapabilities r1 → c ∈ detectedCapabilities r2) →
        patternScore capabilities (detectedCapabilities r1)
          ≤ patternScore capabilities (detectedCapabilities r2)) := by
  constructor
  · rw [patternScore_eq_sum]
    exact sum_map_le _
      (fun c => findVal_getD_le capabilities (pattern_capabilities_le_five _ hrow) c) _
  · intro hsub
    exact patternScore_mono capabilities _ _
      (detectedCapabilities_nodup r1) (detectedCapabilities_nodup r2) hsub

theorem C3_bound_and_monotone_witness :
    patternScore
        [("parallel_execution", 5), ("context_isolation", 4),
         ("distributed_development", 5), ("direct_user_interaction", 1),
         ("coordination_complexity", 3), ("large_data_handling", 2),
         ("workflow_stages", 2)]
        (detectedCapabilities "parallel tasks")
      ≤ 5 * (detectedCapabilities "parallel tasks").length
    ∧ patternScore
        [("parallel_execution", 5), ("context_isolation", 4),
         ("distributed_development", 5), ("direct_user_interaction", 1),
         ("coordination_complexity", 3), ("large_data_handling", 2),
         ("workflow_stages", 2)]
        (detectedCapabilities "parallel tasks")
      ≤ patternScore
        [("parallel_execution", 5), ("context_isolation", 4),
         ("distributed_development", 5), ("direct_user_interaction", 1),
         ("coordination_complexity", 3), ("large_data_handling", 2),
         ("workflow_stages", 2)]
        (detectedCapabilities "parallel tasks in workflow stages") := by
  have h := C3_bound_and_monotone "parallel tasks" "parallel tasks in workflow stages"
    "subagents"
    [("parallel_execution", 5), ("context_isolation", 4),
     ("distributed_development", 5), ("direct_user_interaction", 1),
     ("coordination_complexity", 3), ("large_data_handling", 2),
     ("workflow_stages", 2)]
    (by decide)
  exact ⟨h.1, h.2 (by decide)⟩

/-- C4: each analysis returns its sentinel exactly when nothing matched —
the Requirement Scorer returns `insufficientSignal` iff no mapping phrase
occurs in the lower-cased input, the Use-Case Classifier returns `noMatch`
iff no option's indicator phrase occurs, and the input
`"build something cool"` yields both sentinels. -/
theorem C4_sentinels :
    (∀ req : String,
        evaluate_requirements req = EvalResult.insufficientSignal ↔
          ∀ kv ∈ REQUIREMENT_MAPPINGS, pyIn kv.1 (pyLower req) = false)
    ∧ (∀ uc : String,
        analyze_use_case uc = UseCaseResult.noMatch ↔
          ∀ p ∈ USE_CASE_INDICATORS, ∀ kw ∈ p.2, pyIn kw (pyLower uc) = false)
    ∧ evaluate_requirements "build something cool" = EvalResult.insufficientSignal
    ∧ analyze_use_case "build something cool" = UseCaseResult.noMatch := by
  refine ⟨?_, ?_, by decide, by decide⟩
  · intro req
    rw [← detectedCapabilities_eq_nil]
    unfold evaluate_requirements
    by_cases h : detectedCapabilities req = [] <;> simp [h]
  · intro uc
    rw [← useCaseMatches_eq_nil]
    unfold analyze_use_case
    by_cases h : useCaseMatches uc = [] <;> simp [h]

theorem unaddressedAspects_eq_nil (problem_description : String) :
    unaddressedAspects problem_description = [] ↔
      ∀ ax ∈ QUESTION_AXES, axisUnaddressed problem_description ax.2 = false := by
  unfold unaddressedAspects
  rw [List.map_eq_nil_iff, List.filter_eq_nil_iff]
  constructor <;> intro h ax hax <;> simpa using h ax hax

/-- C5 (counterexample): for the empty problem description every axis is
unaddressed, yet the question for the sixth axis (`Response Handling`) is
not included in the output — the generator emits only the first four
unaddressed axes' questions — so "an axis's question is included iff none
of its marker words occurs" fails in the right-to-left direction. -/
theorem C5_counterexample :
    ("Response Handling", ["compliance", "audit", "legal", "exact", "verbatim"])
        ∈ QUESTION_AXES
    ∧ axisUnaddressed "" ["compliance", "audit", "legal", "exact", "verbatim"] = true
    ∧ aspectIncluded "" "Response Handling" = false
    ∧ get_clarifying_questions ""
        = QuestionsResult.questions
            ["Execution Model", "User Interaction", "Data Volume", "Workflow Structure"] := by
  decide

/-- C5 (amended): the Clarifying-Question Generator returns at most 4
questions; an axis's question is included only if none of that axis's
marker words occurs in the input (the converse holds only for the first
four unaddressed axes, later ones being silently dropped); and when all 6
axes are addressed it returns the distinct terminal result rather than an
empty list. -/
theorem C5_amended (problem_description : String) :
    (∀ l, get_clarifying_questions problem_description = QuestionsResult.questions l →
        l.length ≤ 4)
    ∧ (∀ a, aspectIncluded problem_description a = true →
        ∃ markers, (a, markers) ∈ QUESTION_AXES
          ∧ axisUnaddressed problem_description markers = true)
    ∧ (get_clarifying_questions problem_description = QuestionsResult.terminal ↔
        ∀ ax ∈ QUESTION_AXES, axisUnaddressed problem_description ax.2 = false) := by
  refine ⟨?_, ?_, ?_⟩
  · intro l hl
    unfold get_clarifying_questions at hl
    by_cases h : unaddressedAspects problem_description = []
    · simp [h] at hl
    · simp only [if_neg h, QuestionsResult.questions.injEq] at hl
      rw [← hl, List.length_take]
      exact min_le_left 4 _
  · intro a ha
    unfold aspectIncluded at ha
    cases hq : get_clarifying_questions problem_description with
    | terminal => rw [hq] at ha; simp at ha
    | questions l =>
      rw [hq] at ha
      have hal : a ∈ l := by simpa using ha
      unfold get_clarifying_questions at hq
      by_cases h : unaddressedAspects problem_description = []
      · simp [h] at hq
      · simp only [if_neg h, QuestionsResult.questions.injEq] at hq
        rw [← hq] at hal
        have hmem : a ∈ unaddressedAspects problem_description :=
          List.take_subset _ _ hal
        unfold unaddressedAspects at hmem
        obtain ⟨ax, haxmem, rfl⟩ := List.mem_map.1 hmem
        have hf := List.mem_filter.1 haxmem
        exact ⟨ax.2, by simpa using hf.1, hf.2⟩
  · have hiff : get_clarifying_questions problem_description = QuestionsResult.terminal ↔
        unaddressedAspects problem_description = [] := by
      unfold get_clarifying_questions
      by_cases h : unaddressedAspects problem_description = [] <;> simp [h]
    rw [hiff, unaddressedAspects_eq_nil]

/-- C6: for every key set and every identifier whose normalized form is a
known pattern, loading twice from a fresh Loaded-Set yields `loaded` then
`alreadyLoaded`, and the second call leaves the Loaded-Set unchanged. -/
theorem C6_load_idempotent (patternKeys : List String) (id : String)
    (hknown : normalizeLoadName id ∈ patternKeys) :
    (load_pattern patternKeys [] id).1 = LoadOutcome.loaded
    ∧ (load_pattern patternKeys (load_pattern patternKeys [] id).2 id).1
        = LoadOutcome.alreadyLoaded
    ∧ (load_pattern patternKeys (load_pattern patternKeys [] id).2 id).2
        = (load_pattern patternKeys [] id).2 := by
  unfold load_pattern
  simp [hknown]

theorem C6_load_idempotent_witness :
    (load_pattern PATTERN_NAMES [] "handoffs").1 = LoadOutcome.loaded
    ∧ (load_pattern PATTERN_NAMES (load_pattern PATTERN_NAMES [] "handoffs").2 "handoffs").1
        = LoadOutcome.alreadyLoaded
    ∧ (load_pattern PATTERN_NAMES (load_pattern PATTERN_NAMES [] "handoffs").2 "handoffs").2
        = (load_pattern PATTERN_NAMES [] "handoffs").2 :=
  C6_load_idempotent PATTERN_NAMES "handoffs" (by decide)

/-- C7 (counterexample): the list `["foo"]` has size 1 and an unknown id;
the code reports the invalid-ids error, not a cardinality-violation error,
so "a list of size 0, 1, or 5+ gets an error identifying the cardinality
violation" fails when an unknown id is present. -/
theorem C7_counterexample :
    get_pattern_comparison PATTERN_NAMES ["foo"] = CompareResult.invalidNames ["foo"]
    ∧ get_pattern_comparison PATTERN_NAMES ["foo"] ≠ CompareResult.tooFew
    ∧ get_pattern_comparison PATTERN_NAMES ["foo"] ≠ CompareResult.tooMany := by
  decide

/-- C7 (amended): any cardinality violation or unknown id yields a
validation error and never a (partial) comparison; the unknown-id check
takes precedence, reporting exactly the (normalized) invalid ids; lists of
size 0, 1 or 5+ whose ids are all known get the matching cardinality
error; and a comparison is produced exactly for 2–4 known ids. -/
theorem C7_amended (patternKeys names : List String) :
    ((names.map normalizeCompareName).filter (fun n => n ∉ patternKeys) ≠ [] →
        get_pattern_comparison patternKeys names
          = CompareResult.invalidNames
              ((names.map normalizeCompareName).filter (fun n => n ∉ patternKeys)))
    ∧ ((names.map normalizeCompareName).filter (fun n => n ∉ patternKeys) = [] →
        names.length < 2 →
        get_pattern_comparison patternKeys names = CompareResult.tooFew)
    ∧ ((names.map normalizeCompareName).filter (fun n => n ∉ patternKeys) = [] →
        4 < names.length →
        get_pattern_comparison patternKeys names = CompareResult.tooMany)
    ∧ (∀ l, get_pattern_comparison patternKeys names = CompareResult.comparison l →
        (names.map normalizeCompareName).filter (fun n => n ∉ patternKeys) = []
        ∧ 2 ≤ names.length ∧ names.length ≤ 4
        ∧ l = names.map normalizeCompareName) := by
  have heq : get_pattern_comparison patternKeys names =
      (if (names.map normalizeCompareName).filter (fun n => n ∉ patternKeys) ≠ [] then
        CompareResult.invalidNames
          ((names.map normalizeCompareName).filter (fun n => n ∉ patternKeys))
      else if (names.map normalizeCompareName).length < 2 then CompareResult.tooFew
      else if 4 < (names.map normalizeCompareName).length then CompareResult.tooMany
      else CompareResult.comparison (names.map normalizeCompareName)) := rfl
  rw [heq, List.length_map]
  by_cases hinv : (names.map normalizeCompareName).filter (fun n => n ∉ patternKeys) = []
  · rw [if_neg (fun h => h hinv)]
    refine ⟨fun h => absurd hinv h, fun _ hlen => ?_, fun _ hlen => ?_, fun l hl => ?_⟩
    · rw [if_pos hlen]
    · rw [if_neg (by omega), if_pos hlen]
    · by_cases h2 : names.length < 2
      · rw [if_pos h2] at hl
        exact absurd hl (by simp)
      · by_cases h4 : 4 < names.length
        · rw [if_neg h2, if_pos h4] at hl
          exact absurd hl (by simp)
        · rw [if_neg h2, if_neg h4] at hl
          injection hl with h5
          exact ⟨hinv, by omega, by omega, h5.symm⟩
  · rw [if_pos hinv]
    refine ⟨fun _ => rfl, fun h => absurd h hinv, fun h => absurd h hinv, fun l hl => ?_⟩
    exact absurd hl (by simp)

theorem C7_amended_witness :
    get_pattern_comparison PATTERN_NAMES ["subagents"] = CompareResult.tooFew
    ∧ get_pattern_comparison PATTERN_NAMES
        ["subagents", "handoffs", "router", "skills", "deep-agents"]
        = CompareResult.tooMany
    ∧ get_pattern_comparison PATTERN_NAMES ["bogus", "handoffs"]
        = CompareResult.invalidNames ["bogus"] := by
  refine ⟨?_, ?_, ?_⟩
  · exact (C7_amended PATTERN_NAMES ["subagents"]).2.1 (by decide) (by decide)
  · exact (C7_amended PATTERN_NAMES
      ["subagents", "handoffs", "router", "skills", "deep-agents"]).2.2.1
      (by decide) (by decide)
  · exact (C7_amended PATTERN_NAMES ["bogus", "handoffs"]).1 (by decide)

theorem parse_malformed (content : String)
    (h : pyFrontmatterMatch content = none) :
    parse_pattern_frontmatter content = placeholderDoc content := by
  unfold parse_pattern_frontmatter
  rw [h]

theorem discover_single_malformed (content : String)
    (h : pyFrontmatterMatch content = none) :
    discover_patterns (some [content]) = [("unknown", placeholderDoc content)] := by
  have hfold : discover_patterns (some [content]) =
      dictInsert [] (parse_pattern_frontmatter content).name
        (parse_pattern_frontmatter content) := rfl
  rw [hfold, parse_malformed content h]
  rfl

/-- C8: knowledge discovery is total and fails soft — any content the
frontmatter regex does not match parses to the placeholder record
(`name="unknown"`, etc.) with the raw content as body; such a document is
still listed (stored under the key `"unknown"`) but is not found by
lookup under any other identifier; and discovery over a missing directory
yields the empty option map rather than raising. -/
theorem C8_fail_soft :
    (∀ content, pyFrontmatterMatch content = none →
        parse_pattern_frontmatter content = placeholderDoc content)
    ∧ discover_patterns none = []
    ∧ (∀ content, pyFrontmatterMatch content = none →
        discover_patterns (some [content]) = [("unknown", placeholderDoc content)])
    ∧ (∀ content id, pyFrontmatterMatch content = none → id ≠ "unknown" →
        lookupDoc (discover_patterns (some [content])) id = none) := by
  refine ⟨parse_malformed, rfl, discover_single_malformed, ?_⟩
  intro content id h hid
  rw [discover_single_malformed content h]
  unfold lookupDoc
  rw [if_neg fun e => hid e.symm]
  rfl

theorem C8_fail_soft_witness :
    parse_pattern_frontmatter "just a body with no front matter"
        = placeholderDoc "just a body with no front matter"
    ∧ lookupDoc (discover_patterns (some ["just a body with no front matter"]))
        "subagents" = none :=
  ⟨C8_fail_soft.1 "just a body with no front matter" (by decide),
   C8_fail_soft.2.2.2 "just a body with no front matter" "subagents"
     (by decide) (by decide)⟩

/-- C9: the Session Load Tracker's `unload` — for a duplicate-free
Loaded-Set, unloading a currently loaded id yields outcome `unloaded` and
removes exactly that id; unloading an id that is not loaded yields
outcome `notLoaded` and leaves the set unchanged. -/
theorem C9_unload_spec (st : List String) (id : String) (hnd : st.Nodup) :
    (id ∈ st →
      (unload st id).1 = UnloadOutcome.unloaded
      ∧ id ∉ (unload st id).2
      ∧ ∀ x, x ≠ id → (x ∈ (unload st id).2 ↔ x ∈ st))
    ∧ (id ∉ st → unload st id = (UnloadOutcome.notLoaded, st)) := by
  constructor
  · intro hmem
    unfold unload
    rw [if_pos hmem]
    exact ⟨rfl, hnd.not_mem_erase, fun x hx => List.mem_erase_of_ne hx⟩
  · intro hmem
    unfold unload
    rw [if_neg hmem]

theorem C9_unload_spec_witness :
    (unload ["handoffs", "router"] "handoffs").1 = UnloadOutcome.unloaded
    ∧ "handoffs" ∉ (unload ["handoffs", "router"] "handoffs").2
    ∧ unload ["handoffs", "router"] "skills"
        = (UnloadOutcome.notLoaded, ["handoffs", "router"]) := by
  have h1 := C9_unload_spec ["handoffs", "router"] "handoffs" (by decide)
  have h2 := C9_unload_spec ["handoffs", "router"] "skills" (by decide)
  exact ⟨(h1.1 (by decide)).1, (h1.1 (by decide)).2.1, h2.2 (by decide)⟩

/-- C10 (counterexample): `load_pattern` normalizes spaces to hyphens but
`get_pattern_comparison` does not — `"Sub Agents"` and `"sub_agents"`
normalize alike for loading, yet differently for comparison, where
`"Sub Agents"` becomes `"sub agents"` and is reported invalid even when
`"sub-agents"` is a known id. -/
theorem C10_counterexample :
    normalizeLoadName "Sub Agents" = "sub-agents"
    ∧ normalizeLoadName "sub_agents" = "sub-agents"
    ∧ normalizeCompareName "sub_agents" = "sub-agents"
    ∧ normalizeCompareName "Sub Agents" = "sub agents"
    ∧ normalizeCompareName "Sub Agents" ≠ normalizeCompareName "sub_agents"
    ∧ (load_pattern ["sub-agents"] [] "Sub Agents").1 = LoadOutcome.loaded
    ∧ get_pattern_comparison ["sub-agents"] ["Sub Agents", "sub_agents"]
        = CompareResult.invalidNames ["sub agents"] := by
  decide

/-- C10 (amended): `load_pattern` normalizes identifiers by lower-casing
and replacing both underscores and spaces with hyphens, so `"Sub Agents"`,
`"sub_agents"` and `"sub-agents"` all resolve to the same option there;
`get_pattern_comparison` strips surrounding whitespace, lower-cases and
replaces only underscores with hyphens, so case and underscore variants
resolve alike in both tools but space-separated forms resolve only via
`load_pattern`. -/
theorem C10_amended :
    normalizeLoadName "Sub Agents" = normalizeLoadName "sub_agents"
    ∧ normalizeLoadName "sub_agents" = normalizeLoadName "sub-agents"
    ∧ normalizeCompareName "SUB_AGENTS" = normalizeCompareName "sub-agents"
    ∧ normalizeCompareName " sub-agents " = "sub-agents"
    ∧ normalizeCompareName "Sub Agents" ≠ normalizeCompareName "sub-agents"
    ∧ (load_pattern ["sub-agents"] [] "sub_agents").1 = LoadOutcome.loaded
    ∧ get_pattern_comparison ["sub-agents"] ["SUB_AGENTS", " sub-agents "]
        = CompareResult.comparison ["sub-agents", "sub-agents"] := by
  decide
